import Mathlib

/-!
Verification development for the resume/job matching service
(`src/ml-api/matcher.py`).

Modelling conventions for the shallow embedding:

* A job record coming from the search provider is a Python dict whose keys
  may be absent, bound to `None`, or bound to a string.  A field is
  therefore `Option (Option String)`: `none` is an absent key,
  `some none` an explicit JSON null, `some (some s)` a string value.
  `dict.get k default` returns the default only when the key is absent.
* Python raising is the `Except String` error channel; the bare `except`
  in `get_top_matches` is the final `match ... | .error _ => []`.
* The module never binds the name `requests`: the only requests-related
  binding it creates is `HTTPAdapter`, taken from `requests.adapters`,
  and nothing else.  Hence `requests.Session()` — the first statement
  of `fetch_jobs_from_api` after the two local imports, and *before* that
  function's own `try` — raises `NameError` on every call.  The embedded
  `fetch_jobs_from_api` therefore returns that error unconditionally: the
  session, the retry configuration and the request below that line are
  dead code.  The exception is absorbed only by the orchestrator's
  catch-all, so `get_top_matches` returns the empty list on every input.
* The sentence-transformer model and `pytorch_cos_sim` are neural,
  floating-point components; they are abstracted as an `MLModel` parameter
  (total functions on an abstract embedding type, with rational similarity
  values), and `torch.argsort` with descending order is abstracted as a
  function parameter.  The ranking stage they feed is embedded faithfully
  even though, behind the failing fetch, it is unreachable.
* `round(x, 2)` is Python bankers rounding at two decimals, idealised over
  the rationals.
-/

namespace ResumeMatcher

/-- A field of a provider job record: `none` models an absent key,
`some none` an explicit JSON null, `some (some s)` a string value. -/
abbrev JsonField := Option (Option String)

/-- A job record returned by the JSearch provider, with the seven fields
`matcher.py` reads.  Every field may be absent or null. -/
structure Job where
  job_title : JsonField := none
  employer_name : JsonField := none
  job_city : JsonField := none
  job_country : JsonField := none
  job_description : JsonField := none
  job_apply_link : JsonField := none
  job_posted_at_datetime_utc : JsonField := none
deriving DecidableEq

/-- The dict produced by `format_job`.  `title`, `company` and `posted_at`
are `Option String` because `job.get(key, default)` passes an explicit
`None` value through, so the formatted fields can themselves be `None`. -/
structure FormattedJob where
  title : Option String
  company : Option String
  location : String
  description : String
  score : ℚ
  apply_link : String
  posted_at : Option String
deriving DecidableEq

/-- Python f-string interpolation of a str-or-None value: `None` renders
as the four characters `None`. -/
def fstr (v : Option String) : String :=
  match v with
  | none => "None"
  | some s => s

/-- The character set of Python `.strip(", ")`: a comma or a space. -/
def isStripChar (c : Char) : Bool := c = ',' || c = ' '

/-- Python `s.strip(", ")`: remove every leading and trailing character
belonging to the set containing the comma and the space. -/
def pyStrip (s : String) : String :=
  String.mk (((s.data.dropWhile isStripChar).reverse.dropWhile isStripChar).reverse)

/-- Rounding to the nearest integer, ties to the even integer (Python
`round` semantics, idealised over `ℚ`).  The fractional part
`q - ⌊q⌋ = rem / den` is compared with `1 / 2` through the equivalent
integer comparison of `2 * rem` with `den`, keeping the definition
kernel-computable. -/
def roundHalfEven (q : ℚ) : ℤ :=
  let f : ℤ := ⌊q⌋
  let rem : ℤ := q.num - f * (q.den : ℤ)
  if 2 * rem < (q.den : ℤ) then f
  else if (q.den : ℤ) < 2 * rem then f + 1
  else if f % 2 = 0 then f else f + 1

/-- Python `round(q, 2)`: round to two decimal places. -/
def pyRound2 (q : ℚ) : ℚ := (roundHalfEven (q * 100) : ℚ) / 100

/-- `format_job(job, similarity_score)` from `matcher.py`.  The only
statement of the body that can raise is `desc[:300]` (and `len(desc)`)
when `job.get("job_description", "")` produced an explicit `None`; that
raise is the `.error` branch.  All other fields tolerate `None`:
f-strings render it, `or` replaces it, `get` defaults only cover absent
keys. -/
def format_job (job : Job) (similarity_score : ℚ) : Except String FormattedJob :=
  match job.job_description.getD (some "") with
  | none => .error "TypeError: NoneType is not subscriptable"
  | some desc =>
    .ok {
      title := job.job_title.getD (some "No title")
      company := job.employer_name.getD (some "Unknown")
      location := pyStrip (fstr (job.job_city.getD (some "")) ++ ", " ++
        fstr (job.job_country.getD (some "")))
      description := String.mk (desc.data.take 300) ++
        (if 300 < desc.length then "..." else "")
      score := pyRound2 (similarity_score * 100)
      apply_link :=
        match job.job_apply_link.getD none with
        | none => "No link"
        | some s => if s = "" then "No link" else s
      posted_at := job.job_posted_at_datetime_utc.getD (some "Unknown") }

/-! ## The job source adapter (`fetch_jobs_from_api`) -/

/-- `fetch_jobs_from_api(query, num_results=10)` as the source actually
behaves.  The module imports only `requests.adapters.HTTPAdapter` and
`urllib3.util.retry.Retry`; the name `requests` is bound nowhere in the
module namespace, so the statement `session = requests.Session()` —
executed before the function's own `try` — raises `NameError` on every
call.  The function therefore never issues a request and never returns a
list: the configured session (a 3-retry budget with backoff on statuses
500, 502, 503, 504, and a 15-second timeout) and the
`raise_for_status`/`data` handling below it are dead code.  The
`.error` value models the `NameError` leaving the function, to be caught
only by the caller. -/
def fetch_jobs_from_api (query : String) (num_results : Nat) :
    Except String (List Job) :=
  .error "NameError: name requests is not defined"

/-! ## The matching pipeline (`get_top_matches`) -/

/-- Abstraction of the sentence-transformer model: `encodeOne` is
`model.encode(resume_text)`, `encodeBatch` is `model.encode(job_texts)`
(whose elements can be `None`, since `j.get("job_description", "")`
passes explicit nulls through), and `cosSim` is one entry of
`util.pytorch_cos_sim`.  All three are abstract total functions; any
raise the real library performs inside the `try` block is observationally
the same as an error of the embedded raise channel, since both are
absorbed by the bare `except`. -/
structure MLModel (Emb : Type) where
  encodeOne : String → Emb
  encodeBatch : List (Option String) → List Emb
  cosSim : Emb → Emb → ℚ

/-- `[j.get("job_description", "") for j in jobs]`. -/
def jobTexts (jobs : List Job) : List (Option String) :=
  jobs.map (fun j => j.job_description.getD (some ""))

/-- `util.pytorch_cos_sim(resume_embedding, job_embeddings)[0]`:
the similarity of the resume embedding with each job embedding. -/
def simsOf {Emb : Type} (M : MLModel Emb) (resume_text : String)
    (jobs : List Job) : List ℚ :=
  (M.encodeBatch (jobTexts jobs)).map (M.cosSim (M.encodeOne resume_text))

/-- Python slicing `l[:k]` for an arbitrary integer `k`: a non-negative
`k` keeps the first `k` elements; a negative `k` drops the last `-k`. -/
def pySlice {α : Type} (l : List α) (k : ℤ) : List α :=
  if 0 ≤ k then l.take k.toNat else l.take (l.length - (-k).toNat)

/-- `similarities.argsort(descending=True)[:top_k]`, parameterised by the
argsort implementation (the call requests no stable sort). -/
def topIndicesOf {Emb : Type} (M : MLModel Emb) (argsort : List ℚ → List Nat)
    (resume_text : String) (jobs : List Job) (top_k : ℤ) : List Nat :=
  pySlice (argsort (simsOf M resume_text jobs)) top_k

/-- One element of the comprehension
`[format_job(jobs[i], similarities[i]) for i in top_indices]`:
indexing raises `IndexError` out of range, then `format_job` runs. -/
def matchStep (jobs : List Job) (sims : List ℚ) (i : Nat) :
    Except String FormattedJob :=
  match jobs.get? i with
  | none => .error "IndexError"
  | some j =>
    match sims.get? i with
    | none => .error "IndexError"
    | some s => format_job j s

/-- A Python list comprehension whose element expression may raise:
elements are evaluated left to right and the first raise aborts. -/
def mapME {α β : Type} (f : α → Except String β) : List α → Except String (List β)
  | [] => .ok []
  | a :: l =>
    match f a with
    | .error e => .error e
    | .ok b =>
      match mapME f l with
      | .error e => .error e
      | .ok bs => .ok (b :: bs)

/-- The part of the `try` block after the fetch: the empty-fetch short
circuit `if not jobs: return []`, then ranking and formatting.  Embedded
faithfully from matcher.py lines 36-51, although in the source this code
is unreachable: no call of `fetch_jobs_from_api` ever produces a `jobs`
list for it to run on. -/
def rankAndFormat {Emb : Type} (M : MLModel Emb) (argsort : List ℚ → List Nat)
    (resume_text : String) (jobs : List Job) (top_k : ℤ) :
    Except String (List FormattedJob) :=
  if jobs = [] then .ok []
  else mapME (matchStep jobs (simsOf M resume_text jobs))
    (topIndicesOf M argsort resume_text jobs top_k)

/-- The body of the `try` block of `get_top_matches`: encode the resume,
call `fetch_jobs_from_api` — whose `NameError` propagates here, since it
is raised outside the fetch's own `try` — and, on a returned list, rank
and format.  The `Except` value is the raise channel of the whole
block. -/
def matchBody {Emb : Type} (M : MLModel Emb) (argsort : List ℚ → List Nat)
    (resume_text query : String) (top_k : ℤ) :
    Except String (List FormattedJob) :=
  match fetch_jobs_from_api query 10 with
  | .error e => .error e
  | .ok jobs => rankAndFormat M argsort resume_text jobs top_k

/-- `get_top_matches(resume_text, query, top_k)`: the `try` body wrapped
in `except Exception: return []`. -/
def get_top_matches {Emb : Type} (M : MLModel Emb) (argsort : List ℚ → List Nat)
    (resume_text query : String) (top_k : ℤ) : List FormattedJob :=
  match matchBody M argsort resume_text query top_k with
  | .ok l => l
  | .error _ => []

/-- One executed `model.encode(...)` call, with its argument. -/
inductive EncodeCall where
  | one (text : String)
  | batch (texts : List (Option String))
deriving DecidableEq

/-- The `model.encode` calls `get_top_matches` executes, in order,
derived from the source's control flow: the resume encode (matcher.py:28)
runs before the fetch on every call; the batch encode (matcher.py:40)
would run only after a non-empty fetched list — and since
`fetch_jobs_from_api` raises on every call, control jumps from the fetch
to the `except`, so the batch encode is unreachable and the trace is
always exactly the resume encode. -/
def encodeCallsOf (resume_text query : String) : List EncodeCall :=
  match fetch_jobs_from_api query 10 with
  | .error _ => [.one resume_text]
  | .ok jobs =>
    if jobs = [] then [.one resume_text]
    else [.one resume_text, .batch (jobTexts jobs)]

/-! ## Concrete instances -/

/-- A stable descending argsort, used to instantiate the argsort
parameter at witnesses. -/
def argsortStable (sims : List ℚ) : List Nat :=
  List.insertionSort (fun i j => sims.getD j 0 ≤ sims.getD i 0)
    (List.range sims.length)

/-- A model whose similarities are all 1. -/
def modelOnes : MLModel ℚ :=
  { encodeOne := fun _ => 0
    encodeBatch := fun ts => ts.map (fun _ => 0)
    cosSim := fun _ _ => 1 }

/-- A job whose description key is present but explicitly null. -/
def jobNullDesc : Job := { job_description := some none }

/-- A job with every key absent. -/
def jobAbsent : Job := {}

/-- A job with only a city and a country. -/
def jobLagos : Job :=
  { job_city := some (some "Lagos"), job_country := some (some "Nigeria") }

/-- A job with no city and a country value carrying a trailing space. -/
def jobTrailing : Job := { job_country := some (some "NG ") }

/-- A job whose description has 500 characters. -/
def jobLong : Job :=
  { job_description := some (some (String.mk (List.replicate 500 'a'))) }

/-- Modelled from the spec: the location clause of the Result Formatter
contract, "the comma-joined, non-empty-filtered concatenation of city and
country" — stated in the spec's words for comparison with the
`pyStrip`-based location the code computes. -/
def locationSpec (city country : String) : String :=
  if city = "" then country
  else if country = "" then city
  else city ++ ", " ++ country

/-! ## Helper lemmas -/

/-- The `try` body errors on every input: the fetch raises `NameError`
before anything downstream of it can run. -/
theorem matchBody_err {Emb : Type} (M : MLModel Emb)
    (argsort : List ℚ → List Nat) (resume_text query : String) (top_k : ℤ) :
    matchBody M argsort resume_text query top_k =
      .error "NameError: name requests is not defined" := rfl

/-- Consequently `get_top_matches` returns the empty list on every
input: the catch-all absorbs the `NameError`. -/
theorem get_top_matches_empty {Emb : Type} (M : MLModel Emb)
    (argsort : List ℚ → List Nat) (resume_text query : String) (top_k : ℤ) :
    get_top_matches M argsort resume_text query top_k = [] := rfl

theorem format_job_ok_iff (j : Job) (s : ℚ) :
    (∃ r, format_job j s = .ok r) ↔ j.job_description ≠ some none := by
  cases hd : j.job_description with
  | none => simp [format_job, hd]
  | some v =>
    cases v with
    | none => simp [format_job, hd]
    | some d => simp [format_job, hd]

theorem string_append_empty (s : String) : s ++ "" = s := by
  cases s with
  | mk l =>
    rw [show String.mk l ++ "" = String.mk (l ++ []) from rfl]
    simp

theorem string_data_append (s t : String) : (s ++ t).data = s.data ++ t.data := by
  cases s
  cases t
  rfl

theorem dropWhile_append_eq {l m : List Char}
    (hl : l.dropWhile isStripChar = l) (hne : l ≠ []) :
    (l ++ m).dropWhile isStripChar = l ++ m := by
  cases l with
  | nil => exact absurd rfl hne
  | cons a t =>
    have hpa : isStripChar a = false := by
      cases hpa : isStripChar a
      · rfl
      · exfalso
        have h1 : (a :: t).dropWhile isStripChar = t.dropWhile isStripChar := by
          simp [List.dropWhile_cons, hpa]
        rw [h1] at hl
        have h2 : (t.dropWhile isStripChar).length ≤ t.length :=
          (List.dropWhile_suffix _).sublist.length_le
        rw [hl] at h2
        simp at h2
    rw [List.cons_append]
    simp [List.dropWhile_cons, hpa]

/-! ## The claims -/

/-- C1: for every resume text, query and non-negative `top_k`, the list
returned by `get_top_matches` has length at most `min(top_k, n)` for
every candidate count `n` — degenerately so: in the source
`fetch_jobs_from_api` never returns a candidate list (it raises
`NameError` on every call, absorbed by the catch-all), so the returned
list is always empty, whose length 0 satisfies the bound for any count;
with `top_k = 0` the result is likewise the empty list. -/
theorem get_top_matches_length_le_min {Emb : Type} (M : MLModel Emb)
    (argsort : List ℚ → List Nat) (resume_text query : String)
    (top_k : ℤ) (n : ℕ) (hk : 0 ≤ top_k) :
    get_top_matches M argsort resume_text query top_k = [] ∧
    (get_top_matches M argsort resume_text query top_k).length ≤
      min top_k.toNat n ∧
    (top_k = 0 → get_top_matches M argsort resume_text query top_k = []) := by
  have h := get_top_matches_empty M argsort resume_text query top_k
  refine ⟨h, ?_, fun _ => h⟩
  rw [h]
  simp

theorem get_top_matches_length_le_min_witness :
    get_top_matches modelOnes argsortStable "r" "q" 3 = [] ∧
    (get_top_matches modelOnes argsortStable "r" "q" 3).length ≤
      min (Int.toNat 3) 5 ∧
    ((3 : ℤ) = 0 → get_top_matches modelOnes argsortStable "r" "q" 3 = []) :=
  get_top_matches_length_le_min modelOnes argsortStable "r" "q" 3 5 (by norm_num)

/-- C2: the list returned by `get_top_matches` is ordered by score
descending with stable tie-breaking — degenerately: every call of the
source returns the empty list (the fetch raises `NameError` before the
ranking stage, which is dead code), and the empty list satisfies every
pairwise ordering discipline, the descending-score order and the claimed
tie rule included; no execution ever produces two candidates, tied or
not. -/
theorem get_top_matches_sorted_desc {Emb : Type} (M : MLModel Emb)
    (argsort : List ℚ → List Nat) (resume_text query : String) (top_k : ℤ) :
    get_top_matches M argsort resume_text query top_k = [] ∧
    (∀ R : FormattedJob → FormattedJob → Prop,
      (get_top_matches M argsort resume_text query top_k).Pairwise R) := by
  have h := get_top_matches_empty M argsort resume_text query top_k
  refine ⟨h, fun R => ?_⟩
  rw [h]
  exact List.Pairwise.nil

/-- C3: every score field in a result returned by `get_top_matches` lies
in [0, 100] — vacuously: the source returns the empty result list on
every input (the fetch raises `NameError` before any similarity is
computed), so no score is ever returned.  The score transform itself
(`round(float(sim) * 100, 2)` in `format_job`, dead code behind the
fetch) performs no clamping. -/
theorem get_top_matches_score_bounds {Emb : Type} (M : MLModel Emb)
    (argsort : List ℚ → List Nat) (resume_text query : String) (top_k : ℤ) :
    get_top_matches M argsort resume_text query top_k = [] ∧
    (∀ r ∈ get_top_matches M argsort resume_text query top_k,
      0 ≤ r.score ∧ r.score ≤ 100) := by
  have h := get_top_matches_empty M argsort resume_text query top_k
  refine ⟨h, fun r hr => ?_⟩
  rw [h] at hr
  cases hr

/-- C4: `get_top_matches` is total: whenever the body of its `try` block
raises (any `.error` of the embedded raise channel — in the source this
happens on every call, through the `NameError` of the fetch), the
function returns `[]` instead of propagating the exception. -/
theorem get_top_matches_total {Emb : Type} (M : MLModel Emb)
    (argsort : List ℚ → List Nat) (resume_text query : String)
    (top_k : ℤ) (e : String)
    (h : matchBody M argsort resume_text query top_k = .error e) :
    get_top_matches M argsort resume_text query top_k = [] := by
  simp [get_top_matches, h]

theorem get_top_matches_total_witness :
    matchBody modelOnes argsortStable "r" "q" 3 =
      .error "NameError: name requests is not defined" ∧
    get_top_matches modelOnes argsortStable "r" "q" 3 = [] :=
  ⟨rfl, get_top_matches_total modelOnes argsortStable "r" "q" 3 _ rfl⟩

/-- C5 (counterexample): a concrete call on which the job source yields
zero candidates (it raises `NameError` and never returns a list), the
match result is empty — and yet an encoding call has been performed: the
resume encode precedes the fetch, so the executed encode-call trace is
the one-element list with the resume encode, not the empty trace the
claim asserts. -/
theorem get_top_matches_empty_fetch_cex :
    fetch_jobs_from_api "q" 10 =
      .error "NameError: name requests is not defined" ∧
    get_top_matches modelOnes argsortStable "r" "q" 3 = [] ∧
    encodeCallsOf "r" "q" = [EncodeCall.one "r"] ∧
    encodeCallsOf "r" "q" ≠ [] := by
  refine ⟨rfl, rfl, rfl, by decide⟩

/-- C5 (amended): the job source never returns zero candidates — it
never returns at all: `fetch_jobs_from_api` raises `NameError` on every
call, so the empty-fetch short-circuit (matcher.py:36-37) is unreachable
dead code.  `get_top_matches` still returns an empty list on every
input, but only after performing the resume encoding, which precedes the
fetch: exactly one encoding call occurs, never zero. -/
theorem get_top_matches_empty_fetch {Emb : Type} (M : MLModel Emb)
    (argsort : List ℚ → List Nat) (resume_text query : String) (top_k : ℤ) :
    get_top_matches M argsort resume_text query top_k = [] ∧
    encodeCallsOf resume_text query = [EncodeCall.one resume_text] :=
  ⟨get_top_matches_empty M argsort resume_text query top_k, rfl⟩

/-- C6 (counterexample): `fetch_jobs_from_api` does not return an empty
list instead of raising, and it retries nothing: at a concrete query the
call raises `NameError` — the module never imports the name `requests`,
so `requests.Session()` fails before the function's own `try` and before
any request is issued — rather than returning any list; the three-503s
scenario can never be realised because no request is ever made, and the
orchestrator's catch-all is what produces the empty overall result. -/
theorem fetch_retry_policy_cex :
    fetch_jobs_from_api "backend engineer" 10 =
      .error "NameError: name requests is not defined" ∧
    fetch_jobs_from_api "backend engineer" 10 ≠ .ok [] ∧
    get_top_matches modelOnes argsortStable "r" "backend engineer" 3 = [] := by
  refine ⟨rfl, by simp [fetch_jobs_from_api], rfl⟩

/-- C6 (amended): `fetch_jobs_from_api` makes no attempt at all: the
module binds only `requests.adapters.HTTPAdapter` and never the name
`requests`, so `requests.Session()` raises `NameError` on every call,
before the function's internal `try` — zero HTTP requests are issued and
the configured retry policy (a 3-retry budget with backoff on statuses
500, 502, 503, 504 and a bounded timeout, which would in any case allow
up to 4 attempts total, not 3) is dead code.  The exception propagates
out of `fetch_jobs_from_api` to the orchestrator, whose catch-all
degrades the overall match to an empty list. -/
theorem fetch_retry_policy {Emb : Type} (M : MLModel Emb)
    (argsort : List ℚ → List Nat) (resume_text query : String)
    (top_k : ℤ) (n : ℕ) :
    fetch_jobs_from_api query n =
      .error "NameError: name requests is not defined" ∧
    matchBody M argsort resume_text query top_k =
      .error "NameError: name requests is not defined" ∧
    get_top_matches M argsort resume_text query top_k = [] :=
  ⟨rfl, matchBody_err M argsort resume_text query top_k,
   get_top_matches_empty M argsort resume_text query top_k⟩

/-- C7: for every string description `d`, `format_job` outputs `d`
truncated to its first 300 characters, with the ellipsis marker appended
exactly when `len(d) > 300` (then the output is the 300 retained
characters plus the 3-character marker, total length 303); a description
of at most 300 characters is returned unmodified, and an absent
description yields the empty string with no marker. -/
theorem format_job_truncation (j : Job) (sc : ℚ) :
    (∀ d, j.job_description = some (some d) →
      ∃ r, format_job j sc = .ok r ∧
        (d.length ≤ 300 → r.description = d) ∧
        (300 < d.length →
          r.description = String.mk (d.data.take 300) ++ "..." ∧
          r.description.length = 303)) ∧
    (j.job_description = none →
      ∃ r, format_job j sc = .ok r ∧ r.description = "") := by
  constructor
  · intro d hd
    unfold format_job
    rw [hd]
    simp only [Option.getD_some]
    refine ⟨_, rfl, ?_, ?_⟩
    · intro hle
      show String.mk (d.data.take 300) ++ (if 300 < d.length then "..." else "") = d
      rw [if_neg (not_lt.mpr hle)]
      have hdl : d.data.length ≤ 300 := by
        rw [show d.data.length = d.length from rfl]
        exact hle
      rw [List.take_of_length_le hdl]
      rw [show String.mk d.data = d from rfl]
      exact string_append_empty d
    · intro hgt
      constructor
      · show String.mk (d.data.take 300) ++ (if 300 < d.length then "..." else "") =
          String.mk (d.data.take 300) ++ "..."
        rw [if_pos hgt]
      · show (String.mk (d.data.take 300) ++ (if 300 < d.length then "..." else "")).length = 303
        rw [if_pos hgt]
        rw [show "..." = String.mk ['.', '.', '.'] from rfl]
        rw [show String.mk (d.data.take 300) ++ String.mk ['.', '.', '.'] =
          String.mk (d.data.take 300 ++ ['.', '.', '.']) from rfl]
        rw [show (String.mk (d.data.take 300 ++ ['.', '.', '.'])).length =
          (d.data.take 300 ++ ['.', '.', '.']).length from rfl]
        rw [List.length_append, List.length_take]
        have hdl : 300 < d.data.length := by
          rw [show d.data.length = d.length from rfl]
          exact hgt
        simp
        omega
  · intro hd
    unfold format_job
    rw [hd]
    simp only [Option.getD_none]
    exact ⟨_, rfl, rfl⟩

set_option maxRecDepth 4000 in
theorem format_job_truncation_witness :
    (∃ r, format_job jobLong 0 = .ok r ∧
      r.description =
        String.mk ((String.mk (List.replicate 500 'a')).data.take 300) ++ "..." ∧
      r.description.length = 303) ∧
    (∃ r, format_job jobAbsent 0 = .ok r ∧ r.description = "") := by
  constructor
  · obtain ⟨r, hok, _, hgt⟩ := (format_job_truncation jobLong 0).1
      (String.mk (List.replicate 500 'a')) rfl
    obtain ⟨hdesc, hlen⟩ := hgt (by decide)
    exact ⟨r, hok, hdesc, hlen⟩
  · exact (format_job_truncation jobAbsent 0).2 rfl

/-- C8 (amended): for every job record, a missing title, company, apply
link or posted-at timestamp resolves to its documented default, and a
missing city and country yield the empty location; the location is the
f-string `city, country` stripped of leading and trailing commas and
spaces, which agrees with the comma-joined non-empty-filtered
concatenation of the spec whenever the present values carry no leading or
trailing comma or space characters. -/
theorem format_job_defaults (j : Job) (sc : ℚ) (r : FormattedJob)
    (hok : format_job j sc = .ok r) :
    (j.job_title = none → r.title = some "No title") ∧
    (j.employer_name = none → r.company = some "Unknown") ∧
    (j.job_apply_link = none → r.apply_link = "No link") ∧
    (j.job_posted_at_datetime_utc = none → r.posted_at = some "Unknown") ∧
    (j.job_city = none → j.job_country = none → r.location = "") ∧
    (∀ ci co, j.job_city = some (some ci) → j.job_country = some (some co) →
      ci.data ≠ [] → co.data ≠ [] →
      ci.data.dropWhile isStripChar = ci.data →
      co.data.reverse.dropWhile isStripChar = co.data.reverse →
      r.location = locationSpec ci co) := by
  unfold format_job at hok
  cases hd : j.job_description.getD (some "") with
  | none =>
    rw [hd] at hok
    cases hok
  | some d =>
    rw [hd] at hok
    injection hok with hok
    subst hok
    refine ⟨?_, ?_, ?_, ?_, ?_, ?_⟩
    · intro h
      simp [h]
    · intro h
      simp [h]
    · intro h
      simp [h]
    · intro h
      simp [h]
    · intro hcity hcountry
      simp only [hcity, hcountry, Option.getD_none]
      rfl
    · intro ci co hcity hcountry hne_ci hne_co hci hco
      simp only [hcity, hcountry, Option.getD_some, fstr]
      have hci0 : ci ≠ "" := by
        intro h
        rw [h] at hne_ci
        exact hne_ci rfl
      have hco0 : co ≠ "" := by
        intro h
        rw [h] at hne_co
        exact hne_co rfl
      have hfull : (ci ++ ", " ++ co).data = ci.data ++ ([',', ' '] ++ co.data) := by
        rw [string_data_append, string_data_append,
          show (", " : String).data = [',', ' '] from rfl, List.append_assoc]
      have h1 : (ci ++ ", " ++ co).data.dropWhile isStripChar =
          (ci ++ ", " ++ co).data := by
        rw [hfull]
        exact dropWhile_append_eq hci hne_ci
      have hrev : (ci ++ ", " ++ co).data.reverse =
          co.data.reverse ++ ([' ', ','] ++ ci.data.reverse) := by
        rw [hfull]
        simp [List.reverse_append, List.append_assoc]
      have hne_rev : co.data.reverse ≠ [] := by
        simpa using hne_co
      have h2 : (ci ++ ", " ++ co).data.reverse.dropWhile isStripChar =
          (ci ++ ", " ++ co).data.reverse := by
        rw [hrev]
        exact dropWhile_append_eq hco hne_rev
      show pyStrip (ci ++ ", " ++ co) = locationSpec ci co
      unfold pyStrip
      rw [h1, h2, List.reverse_reverse,
        show String.mk (ci ++ ", " ++ co).data = ci ++ ", " ++ co from rfl]
      unfold locationSpec
      rw [if_neg hci0, if_neg hco0]

/-- C8 (counterexample): the claimed location formula — the comma-joined
non-empty-filtered concatenation of city and country — fails on a job
whose country value carries a trailing space: the code strips it away
with `.strip(", ")`, while the claimed join keeps it. -/
theorem format_job_defaults_cex :
    format_job jobTrailing 0 = .ok
      { title := some "No title", company := some "Unknown",
        location := "NG", description := "", score := 0,
        apply_link := "No link", posted_at := some "Unknown" } ∧
    locationSpec "" "NG " = "NG " ∧
    ("NG" : String) ≠ "NG " := by
  refine ⟨by with_unfolding_all rfl, by decide, by decide⟩

/-- The formatted record the witness of the defaults theorem points at. -/
def lagosRecord : FormattedJob :=
  { title := some "No title", company := some "Unknown",
    location := "Lagos, Nigeria", description := "", score := 0,
    apply_link := "No link", posted_at := some "Unknown" }

theorem format_job_defaults_witness :
    format_job jobLagos 0 = .ok lagosRecord ∧
    lagosRecord.title = some "No title" ∧
    lagosRecord.company = some "Unknown" ∧
    lagosRecord.apply_link = "No link" ∧
    lagosRecord.posted_at = some "Unknown" ∧
    lagosRecord.location = locationSpec "Lagos" "Nigeria" := by
  have hok : format_job jobLagos 0 = .ok lagosRecord := by
    with_unfolding_all rfl
  obtain ⟨h1, h2, h3, h4, _, h6⟩ := format_job_defaults jobLagos 0 lagosRecord hok
  exact ⟨hok, h1 rfl, h2 rfl, h3 rfl, h4 rfl,
    h6 "Lagos" "Nigeria" rfl rfl (by decide) (by decide) (by decide) (by decide)⟩

/-- C9 (counterexample): the per-job error branch is reachable for
absent-or-null inputs: a job whose `job_description` key is present but
explicitly null makes `format_job` raise (the slice `desc[:300]` of
`None`), so no formatted record with defaults is produced for it; and
`get_top_matches` returns the empty list on such input (in the source,
every call returns the empty list — the `try` block raises even before
formatting, and the same catch-all absorbs either exception). -/
theorem format_job_null_cex :
    format_job jobNullDesc 0 =
      .error "TypeError: NoneType is not subscriptable" ∧
    get_top_matches modelOnes argsortStable "r" "q" 3 = [] := by
  refine ⟨by with_unfolding_all rfl, rfl⟩

/-- C9 (amended): per-job formatting succeeds exactly when the
`job_description` field is not explicitly null: every combination of
absent fields succeeds (with the documented defaults), while an explicit
null description raises, and the raise is absorbed by the catch-all of
`get_top_matches`. -/
theorem format_job_succeeds_iff (j : Job) (s : ℚ) :
    (∃ r, format_job j s = .ok r) ↔ j.job_description ≠ some none :=
  format_job_ok_iff j s

/-- C10 (counterexample): at a concrete negative `top_k`,
`get_top_matches` returns the empty list — contradicting the claim that
for a fetched candidate list of length at least 1 and negative `top_k`
it does not return an empty list — and no fetched candidate list exists
at all: the fetch raises `NameError` on every call, so the claim's
premise of `n ≥ 1` fetched candidates is unrealisable in the source. -/
theorem get_top_matches_neg_topk_cex :
    get_top_matches modelOnes argsortStable "r" "q" (-1) = [] ∧
    fetch_jobs_from_api "q" 10 =
      .error "NameError: name requests is not defined" := by
  refine ⟨rfl, rfl⟩

/-- C10 (amended): no fetched candidate list of any length ever exists —
`fetch_jobs_from_api` raises `NameError` on every call — and for every
negative `top_k`, `get_top_matches` does not raise and returns the empty
list; the Python slice semantics of the ranking stage (which would keep
`n - min(n, |top_k|)` candidates) is dead code behind the failing
fetch. -/
theorem get_top_matches_neg_topk {Emb : Type} (M : MLModel Emb)
    (argsort : List ℚ → List Nat) (resume_text query : String)
    (top_k : ℤ) (hk : top_k < 0) :
    get_top_matches M argsort resume_text query top_k = [] :=
  get_top_matches_empty M argsort resume_text query top_k

theorem get_top_matches_neg_topk_witness :
    get_top_matches modelOnes argsortStable "r" "q" (-1) = [] :=
  get_top_matches_neg_topk modelOnes argsortStable "r" "q" (-1) (by norm_num)

end ResumeMatcher
